import Mathlib

/-!
Shallow embedding of the ARM AI configuration module (config.py) and the
Firebase state-logging client (firebase_client.py).

Conventions of the embedding:
- Python floats that carry exact decimal constants are modelled as rationals.
- The process environment (os.getenv) is modelled as a partial map from
  variable names to string values.
- Python dictionaries are modelled as association lists with first-match
  lookup and in-place overwrite-or-append assignment, matching dict update
  semantics for duplicate-free key lists.
- The external Firestore store is modelled explicitly: named collections of
  documents, the auto-generated id the SDK will hand to the next
  document() call, and the server clock of the store (which the visible
  code never reads).
-/

/-- The process environment: os.getenv returns the bound value or none. -/
def Env : Type := String → Option String

/-- Model of os.getenv(key, default): the bound value when the variable is
set, the supplied default otherwise (config.py lines 26, 27, 60). -/
def getenvD (env : Env) (key dflt : String) : String :=
  (env key).getD dflt

/-- Dataclass RiskThresholds (config.py lines 12-21). The dataclass accepts
arbitrary caller-supplied values for every field; the defaults live in
RiskThresholds.defaults below. -/
structure RiskThresholds where
  MAX_POSITION_SIZE_PERCENT : Rat
  MAX_DRAWDOWN_PERCENT : Rat
  VOLATILITY_THRESHOLD : Rat
  CORRELATION_THRESHOLD : Rat
  LIQUIDITY_MIN_USD : Rat
  STOP_LOSS_DEFAULT : Rat
  TAKE_PROFIT_RATIO : Rat

/-- The default field values of RiskThresholds, i.e. the value produced by
the zero-argument constructor call RiskThresholds() at config.py line 50:
0.10, 0.15, 0.03, 0.85, 100000.0, 0.05, 2.0. -/
def RiskThresholds.defaults : RiskThresholds :=
  ⟨1/10, 3/20, 3/100, 17/20, 100000, 1/20, 2⟩

/-- The invariant stated by the spec for risk thresholds: the five
fractional fields lie strictly between 0 and 1, the liquidity floor is a
positive currency amount, and the take-profit ratio is positive and at
least 1. The dataclass itself performs no validation; this predicate is
stated so that it can be checked against constructed values. -/
def RiskThresholds.inv (t : RiskThresholds) : Prop :=
  0 < t.MAX_POSITION_SIZE_PERCENT ∧ t.MAX_POSITION_SIZE_PERCENT < 1 ∧
  0 < t.MAX_DRAWDOWN_PERCENT ∧ t.MAX_DRAWDOWN_PERCENT < 1 ∧
  0 < t.VOLATILITY_THRESHOLD ∧ t.VOLATILITY_THRESHOLD < 1 ∧
  0 < t.CORRELATION_THRESHOLD ∧ t.CORRELATION_THRESHOLD < 1 ∧
  0 < t.LIQUIDITY_MIN_USD ∧
  0 < t.STOP_LOSS_DEFAULT ∧ t.STOP_LOSS_DEFAULT < 1 ∧
  0 < RiskThresholds.TAKE_PROFIT_RATIO t ∧
  1 ≤ RiskThresholds.TAKE_PROFIT_RATIO t

/-- Dataclass FirebaseConfig (config.py lines 23-30). -/
structure FirebaseConfig where
  CREDENTIALS_PATH : String
  PROJECT_ID : String
  RISK_EVENTS_COLLECTION : String
  PORTFOLIO_STATE_COLLECTION : String
  MODEL_STATE_COLLECTION : String

/-- Construction of FirebaseConfig from the process environment: the two
environment-driven fields fall back to their documented defaults, the three
collection names are literals (config.py lines 26-30). -/
def FirebaseConfig.fromEnv (env : Env) : FirebaseConfig :=
  ⟨getenvD env "FIREBASE_CREDENTIALS_PATH" "./firebase-credentials.json",
   getenvD env "FIREBASE_PROJECT_ID" "arm-ai-system",
   "risk_events",
   "portfolio_state",
   "model_state"⟩

/-- Dataclass ModelConfig (config.py lines 32-46). ENSEMBLE_WEIGHTS is
Optional: none models the Python default None before post-init runs. -/
structure ModelConfig where
  TRAINING_INTERVAL_HOURS : Int
  PREDICTION_INTERVAL_MINUTES : Int
  ENSEMBLE_WEIGHTS : Option (List (String × Rat))
  FEATURE_WINDOW : Int

/-- The three documented default ensemble weights installed by post-init
(config.py lines 42-46). -/
def defaultEnsembleWeights : List (String × Rat) :=
  [("isolation_forest", 3/10), ("gradient_boosting", 4/10), ("lstm", 3/10)]

/-- ModelConfig.__post_init__ (config.py lines 40-46): replace a missing
(None) ensemble-weight mapping by the documented default mapping, leave any
explicitly supplied mapping untouched. -/
def ModelConfig.postInit (m : ModelConfig) : ModelConfig :=
  match m.ENSEMBLE_WEIGHTS with
  | none =>
      ⟨m.TRAINING_INTERVAL_HOURS, m.PREDICTION_INTERVAL_MINUTES,
       some defaultEnsembleWeights, m.FEATURE_WINDOW⟩
  | some _ => m

/-- Dataclass construction of ModelConfig with all other fields at their
defaults (24, 5, 50) and a caller-chosen ensemble-weight argument; the
dataclass machinery runs post-init immediately after field assignment. -/
def ModelConfig.make (w : Option (List (String × Rat))) : ModelConfig :=
  ModelConfig.postInit ⟨24, 5, w, 50⟩

/-- The Config class (config.py lines 48-67), resolved against a process
environment. Class-body evaluation in Python resolves each os.getenv call
exactly once at import; the embedding mirrors that by building the whole
record in one construction. -/
structure Config where
  RISK_THRESHOLDS : RiskThresholds
  FIREBASE : FirebaseConfig
  MODELS : ModelConfig
  CCXT_TIMEOUT : Int
  MAX_RETRIES : Int
  REQUEST_DELAY : Rat
  LOG_LEVEL : String
  LOG_FILE : String
  TECHNICAL_INDICATORS : List String

/-- The global configuration instance (config.py line 70), as a function of
the process environment. -/
def Config.fromEnv (env : Env) : Config :=
  ⟨RiskThresholds.defaults,
   FirebaseConfig.fromEnv env,
   ModelConfig.make none,
   30000,
   3,
   1,
   getenvD env "LOG_LEVEL" "INFO",
   "./logs/arm_ai.log",
   ["rsi", "macd", "bollinger_upper", "bollinger_lower",
    "atr", "volume_ratio", "vwap", "momentum"]⟩

/-- Field values of a risk-event document: the caller passes an open
mapping of strings, booleans, numbers and datetimes; the client injects a
datetime (vtime) and a boolean (vbool). -/
inductive Value where
  | vstr (s : String)
  | vbool (b : Bool)
  | vint (n : Int)
  | vtime (t : Nat)
deriving DecidableEq

/-- A Python dictionary of event fields: association list with first-match
lookup; key lists are duplicate-free in Python, and all operations below
agree with dict semantics on duplicate-free lists. -/
abbrev Dict : Type := List (String × Value)

/-- Lookup d[k], as an Option (dict.get). -/
def Dict.get : Dict → String → Option Value
  | [], _ => none
  | (k0, v0) :: rest, k => if k0 = k then some v0 else Dict.get rest k

/-- Key membership test (k in d). -/
def Dict.hasKey (d : Dict) (k : String) : Bool :=
  (Dict.get d k).isSome

/-- In-place assignment d[k] = v: overwrite the first binding of k keeping
its position, or append a new binding at the end, exactly as dict
assignment behaves. -/
def Dict.set : Dict → String → Value → Dict
  | [], k, v => [(k, v)]
  | (k0, v0) :: rest, k, v =>
      if k0 = k then (k, v) :: rest else (k0, v0) :: Dict.set rest k v

/-- Model of event_data.get('type', 'unknown') (firebase_client.py line
71): the declared type field of an event, or the string "unknown" when it
is absent. -/
def reportedType (d : Dict) : Value :=
  (Dict.get d "type").getD (Value.vstr "unknown")

/-- The log records emitted through the module logger, one constructor per
logging site of firebase_client.py. -/
inductive LogMsg where
  | firebaseInitOk
  | credsNotFound (path : String)
  | firestoreClientOk
  | initFailed
  | riskEventLogged (ty : Value)
  | riskEventFailed (ty : Value)
deriving DecidableEq

/-- The external Firestore store: named collections of documents keyed by
document id, the auto-generated id that the SDK will assign at the next
document() call (the SDK guarantees such ids are non-empty 20-character
strings), and the server clock of the store. The visible client code never
reads serverTime; it is part of the store model so that claims about
server-side versus client-side timestamps can be stated. -/
structure Store where
  collections : List (String × List (String × Dict))
  nextAutoId : String
  serverTime : Nat

/-- Helper for Store.getColl: first-match lookup among collections. -/
def lookupColl : List (String × List (String × Dict)) → String → Option (List (String × Dict))
  | [], _ => none
  | (c0, docs) :: rest, c => if c0 = c then some docs else lookupColl rest c

/-- The documents of one named collection (empty when the collection does
not exist yet; Firestore creates collections implicitly). -/
def Store.getColl (db : Store) (c : String) : List (String × Dict) :=
  (lookupColl db.collections c).getD []

/-- Helper for Store.addDoc: append the document to its collection,
creating the collection when absent. -/
def addToColls : List (String × List (String × Dict)) → String → String → Dict → List (String × List (String × Dict))
  | [], c, i, d => [(c, [(i, d)])]
  | (c0, docs) :: rest, c, i, d =>
      if c0 = c then (c0, docs ++ [(i, d)]) :: rest
      else (c0, docs) :: addToColls rest c i d

/-- Create a new document with the given id in the given collection
(doc_ref.set on a fresh document reference). -/
def Store.addDoc (db : Store) (c docId : String) (d : Dict) : Store :=
  ⟨addToColls db.collections c docId d, db.nextAutoId, db.serverTime⟩

/-- Result of one call to log_risk_event: either the write raised and the
exception propagates to the caller, or the id of the created document is
returned. -/
inductive LogResult where
  | raised
  | ok (docId : String)
deriving DecidableEq

/-- Everything observable after one call to log_risk_event: the caller
dictionary after the in-place mutations, the store after the call, the log
records emitted, and the returned value or propagated exception. -/
structure LogOutcome where
  caller : Dict
  store : Store
  logs : List LogMsg
  result : LogResult

/-- FirebaseClient.log_risk_event (firebase_client.py lines 55-73).

Parameters of the embedding: env is the process environment the global
config was built from; utcnow is the value datetime.utcnow() returns at
this call, read from the client process clock; writeFails states whether
the external doc_ref.set write raises at this call.

The body mutates the caller dictionary in place, stamping timestamp with
utcnow and processed with False, then creates a fresh document in the
configured risk-events collection and returns its auto-generated id.

The except branch is modelled from the spec: the source text of the module
is truncated inside the except block (line 74 ends at logger.error), so the
error-path body — log the failure with the declared event type, or
"unknown" when absent, then re-raise without retry — follows the error
handling design of the spec (StoreWriteError: logged with available
context, then re-raised, no automatic retry). -/
def log_risk_event (env : Env) (db : Store) (utcnow : Nat) (writeFails : Bool)
    (event_data : Dict) : LogOutcome :=
  let d1 := Dict.set event_data "timestamp" (Value.vtime utcnow)
  let d2 := Dict.set d1 "processed" (Value.vbool false)
  let coll := (FirebaseConfig.fromEnv env).RISK_EVENTS_COLLECTION
  let docId := db.nextAutoId
  if writeFails then
    ⟨d2, db, [LogMsg.riskEventFailed (reportedType d2)], LogResult.raised⟩
  else
    ⟨d2, Store.addDoc db coll docId d2,
     [LogMsg.riskEventLogged (reportedType d2)], LogResult.ok docId⟩

/-- Outcome of FirebaseClient._initialize_firebase: either the client
reaches the Ready state with a live Firestore handle, or an exception was
re-raised to the caller. -/
inductive InitOutcome where
  | ready
  | raised
deriving DecidableEq

/-- Logs plus outcome of one run of _initialize_firebase. -/
structure InitResult where
  logs : List LogMsg
  outcome : InitOutcome
deriving DecidableEq

/-- FirebaseClient._initialize_firebase (firebase_client.py lines 35-53).

Boolean parameters model the observable environment of the call: appsEmpty
is whether firebase_admin._apps is empty, credsExist is whether the
configured credentials file exists on disk, and the three Fails flags state
whether each external SDK call (credentials.Certificate together with
initialize_app under credentials, initialize_app without credentials, and
firestore.client) raises when executed. Any raise inside the try body jumps
to the except handler, which logs the failure and re-raises. -/
def initFirebase (appsEmpty credsExist certFails uncredFails clientFails : Bool)
    (credsPath : String) : InitResult :=
  if appsEmpty then
    if credsExist then
      if certFails then ⟨[LogMsg.initFailed], InitOutcome.raised⟩
      else
        if clientFails then
          ⟨[LogMsg.firebaseInitOk, LogMsg.initFailed], InitOutcome.raised⟩
        else
          ⟨[LogMsg.firebaseInitOk, LogMsg.firestoreClientOk], InitOutcome.ready⟩
    else
      if uncredFails then
        ⟨[LogMsg.credsNotFound credsPath, LogMsg.initFailed], InitOutcome.raised⟩
      else
        if clientFails then
          ⟨[LogMsg.credsNotFound credsPath, LogMsg.initFailed], InitOutcome.raised⟩
        else
          ⟨[LogMsg.credsNotFound credsPath, LogMsg.firestoreClientOk],
           InitOutcome.ready⟩
  else
    if clientFails then ⟨[LogMsg.initFailed], InitOutcome.raised⟩
    else ⟨[LogMsg.firestoreClientOk], InitOutcome.ready⟩

/-- The class-level state of FirebaseClient (firebase_client.py lines
22-23): the shared _instance attribute (object identities are allocation
indices), the shared _initialized flag, the allocation counter of the
Python runtime, and a count of how many times _initialize_firebase has run
(for stating the at-most-once property). -/
structure CState where
  inst : Option Nat
  initDone : Bool
  alloc : Nat
  initCount : Nat
deriving DecidableEq

/-- The class state at process start: no instance, not yet set up. -/
def CState.start : CState := ⟨none, false, 0, 0⟩

/-- FirebaseClient.__new__ (firebase_client.py lines 25-28), run without
interleaving: allocate and install the instance when _instance is None,
then return the value of cls._instance. -/
def clientNew (s : CState) : CState × Nat :=
  match s.inst with
  | none => (⟨some s.alloc, s.initDone, s.alloc + 1, s.initCount⟩, s.alloc)
  | some o => (s, o)

/-- One sequential constructor call FirebaseClient(): __new__ followed by
__init__ (firebase_client.py lines 25-33), on the run where
_initialize_firebase succeeds. __init__ checks _initialized, runs the
setup, then sets the flag. -/
def clientCtor (s : CState) : CState × Nat :=
  let p := clientNew s
  if p.1.initDone then p
  else (⟨p.1.inst, true, p.1.alloc, p.1.initCount + 1⟩, p.2)

/-- n sequential constructor calls from process start, collecting the
returned object identities. -/
def runCtorCalls : Nat → CState × List Nat
  | 0 => (CState.start, [])
  | n + 1 =>
      let p := runCtorCalls n
      let q := clientCtor p.1
      (q.1, p.2 ++ [q.2])

/-- Program counter of one thread executing FirebaseClient(): the atomic
steps are the read of cls._instance (line 26), the conditional allocating
write to cls._instance (line 27), the re-read at return cls._instance
(line 28), the read of self._initialized (line 31), the run of
_initialize_firebase (line 32), and the write _initialized = True (line
33). CPython can switch threads between any two of these. -/
inductive TPc where
  | newRead
  | newWrite
  | newRet
  | initRead
  | initRun
  | initSet
  | done
deriving DecidableEq

/-- One thread running the constructor: program counter, the locally
observed answers of the two reads, and the value the call returns. -/
structure Thread where
  pc : TPc
  sawNoInst : Bool
  sawNotInit : Bool
  ret : Option Nat
deriving DecidableEq

/-- A thread at the start of a constructor call. -/
def Thread.start : Thread := ⟨TPc.newRead, false, false, none⟩

/-- One atomic step of a thread against the shared class state. -/
def threadStep (cls : CState) (t : Thread) : CState × Thread :=
  match t.pc with
  | TPc.newRead => (cls, ⟨TPc.newWrite, cls.inst.isNone, t.sawNotInit, t.ret⟩)
  | TPc.newWrite =>
      if t.sawNoInst then
        (⟨some cls.alloc, cls.initDone, cls.alloc + 1, cls.initCount⟩,
         ⟨TPc.newRet, t.sawNoInst, t.sawNotInit, t.ret⟩)
      else (cls, ⟨TPc.newRet, t.sawNoInst, t.sawNotInit, t.ret⟩)
  | TPc.newRet => (cls, ⟨TPc.initRead, t.sawNoInst, t.sawNotInit, cls.inst⟩)
  | TPc.initRead => (cls, ⟨TPc.initRun, t.sawNoInst, !cls.initDone, t.ret⟩)
  | TPc.initRun =>
      if t.sawNotInit then
        (⟨cls.inst, cls.initDone, cls.alloc, cls.initCount + 1⟩,
         ⟨TPc.initSet, t.sawNoInst, t.sawNotInit, t.ret⟩)
      else (cls, ⟨TPc.done, t.sawNoInst, t.sawNotInit, t.ret⟩)
  | TPc.initSet =>
      (⟨cls.inst, true, cls.alloc, cls.initCount⟩,
       ⟨TPc.done, t.sawNoInst, t.sawNotInit, t.ret⟩)
  | TPc.done => (cls, t)

/-- Two threads concurrently calling FirebaseClient() on the shared class
state. -/
structure TwoThreads where
  cls : CState
  t1 : Thread
  t2 : Thread
deriving DecidableEq

/-- Both threads about to construct, class state at process start. -/
def TwoThreads.start : TwoThreads := ⟨CState.start, Thread.start, Thread.start⟩

/-- Run one atomic step of the chosen thread (true picks the first). -/
def stepOf (m : TwoThreads) (first : Bool) : TwoThreads :=
  if first then
    let p := threadStep m.cls m.t1
    ⟨p.1, p.2, m.t2⟩
  else
    let p := threadStep m.cls m.t2
    ⟨p.1, m.t1, p.2⟩

/-- Run a whole schedule (a list of thread choices) from the start state. -/
def runSchedule (bs : List Bool) : TwoThreads :=
  bs.foldl stepOf TwoThreads.start

/-- The interleaving in which both threads pass the None check of __new__
before either writes cls._instance, and both pass the _initialized check
before either sets the flag. -/
def racySchedule : List Bool :=
  [true, false, true, true, false, false,
   true, false, true, true, false, false]

/-! Helper lemmas about the dictionary and store operations. -/

/-- Lookup after assignment: the assigned key now maps to the new value,
every other key is untouched. -/
theorem Dict.get_set (d : Dict) (k q : String) (v : Value) :
    Dict.get (Dict.set d k v) q = if q = k then some v else Dict.get d q := by
  induction d with
  | nil =>
      by_cases h : q = k
      · subst h; simp [Dict.set, Dict.get]
      · simp [Dict.set, Dict.get, h, Ne.symm h]
  | cons a rest ih =>
      obtain ⟨a1, a2⟩ := a
      by_cases h1 : a1 = k
      · subst h1
        by_cases h2 : q = a1
        · subst h2; simp [Dict.set, Dict.get]
        · simp [Dict.set, Dict.get, h2, Ne.symm h2]
      · by_cases h2 : a1 = q
        · subst h2
          simp [Dict.set, Dict.get, h1]
        · simp [Dict.set, Dict.get, h1, h2, ih]

/-- Key membership after assignment. -/
theorem Dict.hasKey_set (d : Dict) (k q : String) (v : Value) :
    Dict.hasKey (Dict.set d k v) q = (Dict.hasKey d q || (q == k)) := by
  by_cases h : q = k
  · subst h; simp [Dict.hasKey, Dict.get_set]
  · simp [Dict.hasKey, Dict.get_set, h]

/-- Adding a document appends it to its collection. -/
theorem lookupColl_addToColls (L : List (String × List (String × Dict)))
    (c i : String) (d : Dict) :
    lookupColl (addToColls L c i d) c
      = some ((lookupColl L c).getD [] ++ [(i, d)]) := by
  induction L with
  | nil => simp [addToColls, lookupColl]
  | cons a rest ih =>
      obtain ⟨c0, docs⟩ := a
      by_cases h : c0 = c
      · subst h; simp [addToColls, lookupColl]
      · simp [addToColls, lookupColl, h, ih]

/-- Store.addDoc appends the new document at the end of the addressed
collection. -/
theorem Store.getColl_addDoc (db : Store) (c i : String) (d : Dict) :
    Store.getColl (Store.addDoc db c i d) c = Store.getColl db c ++ [(i, d)] := by
  simp [Store.getColl, Store.addDoc, lookupColl_addToColls]

/-! Claim theorems. -/

/-- C9 counterexample: the RiskThresholds dataclass performs no validation,
so a constructed value with an explicitly supplied out-of-range field, here
RiskThresholds(MAX_POSITION_SIZE_PERCENT=2.0) with every other field at its
default, violates the stated invariant. -/
theorem riskThresholds_no_validation :
    ¬ RiskThresholds.inv ⟨2, 3/20, 3/100, 17/20, 100000, 1/20, 2⟩ := by
  unfold RiskThresholds.inv
  norm_num

/-- C9 (amended): the default field values of RiskThresholds — hence the
single instance the program constructs, Config.RISK_THRESHOLDS at config.py
line 50 — satisfy the invariant: the five fractional fields lie strictly
between 0 and 1, the liquidity floor is positive, and the take-profit ratio
is positive and at least 1. The dataclass itself does not enforce this for
explicitly supplied field values. -/
theorem riskThresholds_defaults_invariant :
    RiskThresholds.inv RiskThresholds.defaults ∧
    (∀ env : Env, (Config.fromEnv env).RISK_THRESHOLDS = RiskThresholds.defaults) := by
  constructor
  · unfold RiskThresholds.inv RiskThresholds.defaults
    norm_num
  · intro env; rfl

/-- C5: constructing ModelConfig without an ensemble-weight mapping yields
exactly the three documented entries, and any explicitly supplied mapping,
including the empty one, is left untouched. -/
theorem ensemble_weights_defaulting :
    (ModelConfig.make none).ENSEMBLE_WEIGHTS
      = some [("isolation_forest", 3/10), ("gradient_boosting", 4/10), ("lstm", 3/10)] ∧
    (∀ w : List (String × Rat), (ModelConfig.make (some w)).ENSEMBLE_WEIGHTS = some w) ∧
    (ModelConfig.make (some [])).ENSEMBLE_WEIGHTS = some [] := by
  refine ⟨rfl, ?_, rfl⟩
  intro w; rfl

/-- C6: for every combination of the supported environment variables being
set or unset, the configuration yields the environment value when set and
the documented default when unset, for the credentials path, the project
id, and the log level. -/
theorem env_config_resolution (env : Env) :
    ((env "FIREBASE_CREDENTIALS_PATH" = none →
        (Config.fromEnv env).FIREBASE.CREDENTIALS_PATH = "./firebase-credentials.json") ∧
     (∀ v, env "FIREBASE_CREDENTIALS_PATH" = some v →
        (Config.fromEnv env).FIREBASE.CREDENTIALS_PATH = v)) ∧
    ((env "FIREBASE_PROJECT_ID" = none →
        (Config.fromEnv env).FIREBASE.PROJECT_ID = "arm-ai-system") ∧
     (∀ v, env "FIREBASE_PROJECT_ID" = some v →
        (Config.fromEnv env).FIREBASE.PROJECT_ID = v)) ∧
    ((env "LOG_LEVEL" = none → (Config.fromEnv env).LOG_LEVEL = "INFO") ∧
     (∀ v, env "LOG_LEVEL" = some v → (Config.fromEnv env).LOG_LEVEL = v)) := by
  refine ⟨⟨?_, ?_⟩, ⟨?_, ?_⟩, ⟨?_, ?_⟩⟩
  · intro h; simp [Config.fromEnv, FirebaseConfig.fromEnv, getenvD, h]
  · intro v h; simp [Config.fromEnv, FirebaseConfig.fromEnv, getenvD, h]
  · intro h; simp [Config.fromEnv, FirebaseConfig.fromEnv, getenvD, h]
  · intro v h; simp [Config.fromEnv, FirebaseConfig.fromEnv, getenvD, h]
  · intro h; simp [Config.fromEnv, getenvD, h]
  · intro v h; simp [Config.fromEnv, getenvD, h]

/-- An environment with only LOG_LEVEL set, for exercising both the set and
the unset branches. -/
def envDemo : Env := fun k => if k = "LOG_LEVEL" then some "DEBUG" else none

/-- Witness for C6 at a concrete environment: the set variable is returned,
the unset ones fall back to their documented defaults. -/
theorem env_config_resolution_witness :
    (Config.fromEnv envDemo).LOG_LEVEL = "DEBUG" ∧
    (Config.fromEnv envDemo).FIREBASE.CREDENTIALS_PATH = "./firebase-credentials.json" ∧
    (Config.fromEnv envDemo).FIREBASE.PROJECT_ID = "arm-ai-system" :=
  ⟨(env_config_resolution envDemo).2.2.2 "DEBUG" rfl,
   (env_config_resolution envDemo).1.1 rfl,
   (env_config_resolution envDemo).2.1.1 rfl⟩

/-- C7: on the first initialization (no app yet) with the configured
credentials file missing, the client logs the warning and proceeds
uncredentialed; when the two external calls of that path succeed the run
ends Ready, and a run of that path raises only when one of those external
calls fails — never because of the missing file itself. -/
theorem missing_credentials_degraded_ok (path : String) (certFails : Bool) :
    (initFirebase true false certFails false false path).logs
        = [LogMsg.credsNotFound path, LogMsg.firestoreClientOk] ∧
    (initFirebase true false certFails false false path).outcome = InitOutcome.ready ∧
    (∀ uncredFails clientFails : Bool,
      ((initFirebase true false certFails uncredFails clientFails path).outcome
          = InitOutcome.raised ↔ (uncredFails || clientFails) = true)) := by
  refine ⟨rfl, rfl, ?_⟩
  intro uncredFails clientFails
  cases uncredFails <;> cases clientFails <;> simp [initFirebase]

/-- Witness for C7 at concrete inputs: the degraded path reaches Ready with
the warning, and the same path raises when the external client call fails. -/
theorem missing_credentials_degraded_ok_witness :
    (initFirebase true false false false false "./firebase-credentials.json").logs
        = [LogMsg.credsNotFound "./firebase-credentials.json",
           LogMsg.firestoreClientOk] ∧
    (initFirebase true false false false true "./firebase-credentials.json").outcome
        = InitOutcome.raised :=
  ⟨(missing_credentials_degraded_ok "./firebase-credentials.json" false).1,
   ((missing_credentials_degraded_ok "./firebase-credentials.json" false).2.2
      false true).mpr rfl⟩

/-- C8: a run of _initialize_firebase raises exactly when one of the
executed external setup calls fails, the failure is then logged before the
exception is re-raised to the caller, and a run that reaches Ready logs no
failure: initialization failures are never silently swallowed. -/
theorem init_failure_logged_and_reraised
    (appsEmpty credsExist certFails uncredFails clientFails : Bool)
    (path : String) :
    ((initFirebase appsEmpty credsExist certFails uncredFails clientFails path).outcome
        = InitOutcome.raised ↔
      (((appsEmpty && credsExist) && certFails)
        || ((appsEmpty && !credsExist) && uncredFails)
        || clientFails) = true) ∧
    ((initFirebase appsEmpty credsExist certFails uncredFails clientFails path).outcome
        = InitOutcome.raised →
      LogMsg.initFailed
        ∈ (initFirebase appsEmpty credsExist certFails uncredFails clientFails path).logs) ∧
    ((initFirebase appsEmpty credsExist certFails uncredFails clientFails path).outcome
        = InitOutcome.ready →
      LogMsg.initFailed
        ∉ (initFirebase appsEmpty credsExist certFails uncredFails clientFails path).logs) := by
  cases appsEmpty <;> cases credsExist <;> cases certFails <;>
    cases uncredFails <;> cases clientFails <;> simp [initFirebase]

/-- Witness for C8 at a concrete input: a failing credentialed setup is
logged and the exception propagates. -/
theorem init_failure_logged_and_reraised_witness :
    LogMsg.initFailed
      ∈ (initFirebase true true true false false "./firebase-credentials.json").logs :=
  (init_failure_logged_and_reraised true true true false false
      "./firebase-credentials.json").2.1 rfl

/-- C1: on a successful write, log_risk_event persists into the configured
risk-events collection a new document that carries exactly the caller
fields plus the injected timestamp (stamped at write time, overwriting any
caller-supplied value) and the injected processed field set to false — no
other field added or removed — and returns the non-empty auto-generated id
of that document. The hypothesis is the Firestore SDK guarantee that
auto-generated document ids are non-empty. -/
theorem log_risk_event_persists_exact_fields
    (env : Env) (db : Store) (utcnow : Nat) (d : Dict)
    (hid : db.nextAutoId ≠ "") :
    (log_risk_event env db utcnow false d).result = LogResult.ok db.nextAutoId ∧
    db.nextAutoId ≠ "" ∧
    Store.getColl (log_risk_event env db utcnow false d).store
        (FirebaseConfig.fromEnv env).RISK_EVENTS_COLLECTION
      = Store.getColl db (FirebaseConfig.fromEnv env).RISK_EVENTS_COLLECTION
        ++ [(db.nextAutoId, (log_risk_event env db utcnow false d).caller)] ∧
    Dict.get (log_risk_event env db utcnow false d).caller "timestamp"
      = some (Value.vtime utcnow) ∧
    Dict.get (log_risk_event env db utcnow false d).caller "processed"
      = some (Value.vbool false) ∧
    (∀ k, k ≠ "timestamp" → k ≠ "processed" →
      Dict.get (log_risk_event env db utcnow false d).caller k = Dict.get d k) ∧
    (∀ k, Dict.hasKey (log_risk_event env db utcnow false d).caller k
      = ((Dict.hasKey d k || (k == "timestamp")) || (k == "processed"))) := by
  refine ⟨rfl, hid, ?_, ?_, ?_, ?_, ?_⟩
  · simp [log_risk_event, Store.getColl_addDoc]
  · simp [log_risk_event, Dict.get_set]
  · simp [log_risk_event, Dict.get_set]
  · intro k h1 h2
    simp [log_risk_event, Dict.get_set, h1, h2]
  · intro k
    simp [log_risk_event, Dict.hasKey_set]

/-- A concrete store: no documents yet, with the 20-character id the SDK
will assign next, server clock at 1000. -/
def dbDemo : Store := ⟨[], "d8f3kq0visj2m4bz9wtc", 1000⟩

/-- The event of the spec scenario. -/
def eventDemo : Dict :=
  [("type", Value.vstr "drawdown_breach"), ("severity", Value.vstr "high")]

/-- Witness for C1 at a concrete input: logging the spec scenario event
returns the non-empty id and persists processed = false. -/
theorem log_risk_event_persists_exact_fields_witness :
    (log_risk_event (fun _ => none) dbDemo 42 false eventDemo).result
      = LogResult.ok "d8f3kq0visj2m4bz9wtc" ∧
    Dict.get (log_risk_event (fun _ => none) dbDemo 42 false eventDemo).caller
        "processed" = some (Value.vbool false) := by
  have h := log_risk_event_persists_exact_fields (fun _ => none) dbDemo 42
    eventDemo (by decide)
  exact ⟨h.1, h.2.2.2.2.1⟩

/-- C2: when the underlying write raises, log_risk_event logs the failure
with the declared type of the event (the string "unknown" when the type
field is absent), re-raises to the caller, returns no document id, and
leaves the store unchanged — a single attempt, no retry. -/
theorem log_risk_event_write_failure
    (env : Env) (db : Store) (utcnow : Nat) (d : Dict) :
    (log_risk_event env db utcnow true d).result = LogResult.raised ∧
    (log_risk_event env db utcnow true d).store = db ∧
    (log_risk_event env db utcnow true d).logs
      = [LogMsg.riskEventFailed ((Dict.get d "type").getD (Value.vstr "unknown"))] := by
  refine ⟨rfl, rfl, ?_⟩
  simp [log_risk_event, reportedType, Dict.get_set]

/-- C4 counterexample: at a store whose server clock reads 999 while the
client clock reads 5, the injected timestamp of the logged event is the
client reading 5, not the server reading. -/
theorem timestamp_not_server_time :
    Dict.get (log_risk_event (fun _ => none) ⟨[], "id0000000000000000001", 999⟩ 5
        false [("type", Value.vstr "volatility_spike")]).caller "timestamp"
      = some (Value.vtime 5) ∧
    (⟨[], "id0000000000000000001", 999⟩ : Store).serverTime = 999 ∧
    some (Value.vtime 5)
      ≠ some (Value.vtime (⟨[], "id0000000000000000001", 999⟩ : Store).serverTime) := by
  refine ⟨?_, rfl, ?_⟩ <;> decide

/-- C4 (amended): the injected timestamp is the value of datetime.utcnow()
at the call — the clock of the client process — for every event and
whether or not the write then fails; the server clock of the store plays no
part in it. -/
theorem timestamp_is_client_clock
    (env : Env) (db : Store) (utcnow : Nat) (wf : Bool) (d : Dict) :
    Dict.get (log_risk_event env db utcnow wf d).caller "timestamp"
      = some (Value.vtime utcnow) := by
  cases wf <;> simp [log_risk_event, Dict.get_set]

/-- C10: log_risk_event mutates the caller dictionary in place: whether the
write succeeds or fails, after the call the caller dictionary is exactly
the original with timestamp and processed assigned — any caller-supplied
values under those two keys overwritten, every other binding unchanged —
and the mutation is not rolled back on failure. -/
theorem log_risk_event_mutates_caller_dict
    (env : Env) (db : Store) (utcnow : Nat) (wf : Bool) (d : Dict) :
    (log_risk_event env db utcnow wf d).caller
      = Dict.set (Dict.set d "timestamp" (Value.vtime utcnow)) "processed"
          (Value.vbool false) ∧
    Dict.get (log_risk_event env db utcnow wf d).caller "timestamp"
      = some (Value.vtime utcnow) ∧
    Dict.get (log_risk_event env db utcnow wf d).caller "processed"
      = some (Value.vbool false) ∧
    (∀ k, k ≠ "timestamp" → k ≠ "processed" →
      Dict.get (log_risk_event env db utcnow wf d).caller k = Dict.get d k) := by
  refine ⟨?_, ?_, ?_, ?_⟩
  · cases wf <;> rfl
  · cases wf <;> simp [log_risk_event, Dict.get_set]
  · cases wf <;> simp [log_risk_event, Dict.get_set]
  · intro k h1 h2
    cases wf <;> simp [log_risk_event, Dict.get_set, h1, h2]

/-- Witness for C10 at a concrete input: a failing write still leaves the
caller dictionary mutated — caller-supplied processed overwritten in place,
timestamp appended, the severity binding untouched. -/
theorem log_risk_event_mutates_caller_dict_witness :
    (log_risk_event (fun _ => none) ⟨[], "w0000000000000000001", 0⟩ 7 true
        [("severity", Value.vstr "high"), ("processed", Value.vbool true)]).caller
      = [("severity", Value.vstr "high"), ("processed", Value.vbool false),
         ("timestamp", Value.vtime 7)] ∧
    Dict.get (log_risk_event (fun _ => none) ⟨[], "w0000000000000000001", 0⟩ 7 true
        [("severity", Value.vstr "high"), ("processed", Value.vbool true)]).caller
        "severity" = some (Value.vstr "high") := by
  have h := log_risk_event_mutates_caller_dict (fun _ => none)
    ⟨[], "w0000000000000000001", 0⟩ 7 true
    [("severity", Value.vstr "high"), ("processed", Value.vbool true)]
  exact ⟨h.1.trans (by decide), (h.2.2.2 "severity" (by decide) (by decide)).trans (by decide)⟩

/-- C3 counterexample: the constructor has no lock, so under the concrete
interleaving racySchedule — both threads pass the None check of __new__
before either writes cls._instance, and both pass the _initialized check
before either sets the flag — the two concurrent constructor calls return
distinct instances and _initialize_firebase runs twice in one process. -/
theorem constructor_concurrent_race :
    (runSchedule racySchedule).t1.ret = some 0 ∧
    (runSchedule racySchedule).t2.ret = some 1 ∧
    (runSchedule racySchedule).t1.ret ≠ (runSchedule racySchedule).t2.ret ∧
    (runSchedule racySchedule).cls.initCount = 2 := by
  refine ⟨rfl, rfl, ?_, rfl⟩
  decide

/-- C3 (amended): sequential construction is idempotent — any number of
sequential FirebaseClient() calls in one process all return the single
first-allocated instance, and the initialization step runs exactly once;
the code has no mutual exclusion, so this does not extend to concurrent
first use. -/
theorem constructor_sequential_idempotent (n : Nat) (h : 1 ≤ n) :
    runCtorCalls n = (⟨some 0, true, 1, 1⟩, List.replicate n 0) := by
  induction n with
  | zero => exact absurd h (by decide)
  | succ m ih =>
      cases Nat.eq_zero_or_pos m with
      | inl h0 => subst h0; rfl
      | inr hpos =>
          have hm := ih hpos
          simp [runCtorCalls, hm, clientCtor, clientNew, List.replicate_succ']

/-- Witness for C3 at a concrete count: three sequential constructor calls
all return instance 0 and initialization ran once. -/
theorem constructor_sequential_idempotent_witness :
    runCtorCalls 3 = (⟨some 0, true, 1, 1⟩, [0, 0, 0]) :=
  (constructor_sequential_idempotent 3 (by decide)).trans (by decide)
